import Mathlib

/-!
Verification development for the Secure-Bank server (src/server.js).

The server is an Express application over PostgreSQL.  We shallow-embed the
request handlers that the specification's claims are about:

* `authMiddleware`            (src/server.js lines 120-141)
* `POST /api/signup`          (lines 150-170)
* `POST /api/signin`          (lines 198-219)
* `POST /api/user/take-loan`  (lines 227-247)
* `GET  /api/user/loans`      (lines 250-258)
* `POST /api/user/change-password` (lines 261-279)

JavaScript numbers are modelled as `Option ℚ` (`none` = NaN; the claims do not
exercise float rounding or the Infinity values, which are outside the model's
numeric domain).  The PostgreSQL store is modelled as in-memory lists with the
queries' filter/sort semantics spelled out.  bcrypt and jsonwebtoken are
external libraries; bcrypt is modelled symbolically (a digest remembers the
hashed plaintext and a salt, `compare` succeeds exactly for that plaintext,
which is the ideal collision-free behaviour the spec assumes), and JWT
verification is a parameter `verify : String → Option Nat` of the middleware,
so that theorems quantify over every possible behaviour of the token library.
-/

namespace SecureBank

/-- A JavaScript number: `some q` is the finite value `q`, `none` is NaN. -/
abbrev JNum := Option ℚ

/-- JavaScript `+` on numbers: NaN is absorbing. -/
def jadd : JNum → JNum → JNum
  | some a, some b => some (a + b)
  | _, _ => none

/-- JavaScript `x > c` for a number `x` and finite `c`: false when `x` is NaN. -/
def jgt (x : JNum) (c : ℚ) : Bool :=
  match x with
  | none => false
  | some a => decide (c < a)

/-- A JSON value as it can arrive in a request body field (arrays and objects
are not needed by any claim and are left out of the model). -/
inductive JVal where
  | undef
  | nullv
  | boolv (b : Bool)
  | num (x : JNum)
  | str (s : String)
deriving DecidableEq

/-- JavaScript truthiness of a `JVal` (the semantics of `if (!amount)`):
`undefined`, `null`, `false`, `0`, NaN and `""` are falsy. -/
def JVal.truthy : JVal → Bool
  | .undef => false
  | .nullv => false
  | .boolv b => b
  | .num none => false
  | .num (some x) => decide (x ≠ 0)
  | .str s => decide (s ≠ "")

/-- The whitespace characters skipped by `parseFloat` (ASCII portion of the
JavaScript WhiteSpace / LineTerminator classes). -/
def jsSpace (c : Char) : Bool :=
  c == ' ' || c == '\t' || c == '\n' || c == '\r' ||
  c == Char.ofNat 11 || c == Char.ofNat 12

/-- Drop leading JS whitespace characters. -/
def dropSpacesJS : List Char → List Char
  | [] => []
  | c :: cs => if jsSpace c then dropSpacesJS cs else c :: cs

/-- Read a maximal run of decimal digits, returned as digit values. -/
def readDigits : List Char → List Nat × List Char
  | [] => ([], [])
  | c :: cs =>
    if c.isDigit then
      let p := readDigits cs
      ((c.toNat - 48) :: p.1, p.2)
    else ([], c :: cs)

/-- Assemble a digit list into the natural number it denotes. -/
def digitsToNat (ds : List Nat) : Nat := ds.foldl (fun a d => a * 10 + d) 0

/-- Ten to an integer power, as a rational. -/
def pow10 (e : Int) : ℚ :=
  if 0 ≤ e then ((10 : ℚ) ^ e.toNat) else 1 / (10 : ℚ) ^ (-e).toNat

/-- Parse the mantissa part `digits [ . digits ]` of a decimal literal; fails
when there is no digit at all (then `parseFloat` yields NaN). -/
def parseMantissa (cs : List Char) : Option (ℚ × List Char) :=
  let pi := readDigits cs
  match pi.2 with
  | '.' :: r2 =>
    let pf := readDigits r2
    if pi.1.isEmpty && pf.1.isEmpty then none
    else some ((digitsToNat pi.1 : ℚ) + (digitsToNat pf.1 : ℚ) / (10 : ℚ) ^ pf.1.length, pf.2)
  | _ => if pi.1.isEmpty then none else some ((digitsToNat pi.1 : ℚ), pi.2)

/-- Parse a trailing exponent `e[+-]digits`; a malformed exponent is ignored,
as `parseFloat` does (`parseFloat("1e") = 1`). -/
def parseExponent (cs : List Char) : Int :=
  match cs with
  | c :: r1 =>
    if c == 'e' || c == 'E' then
      match r1 with
      | '+' :: r2 => (digitsToNat (readDigits r2).1 : Int)
      | '-' :: r2 => -(digitsToNat (readDigits r2).1 : Int)
      | _ => (digitsToNat (readDigits r1).1 : Int)
    else 0
  | [] => 0

/-- JavaScript `parseFloat` on a character list: skip whitespace, optional
sign, mantissa, optional exponent; NaN (`none`) when no digits are found. -/
def parseFloatL (cs : List Char) : JNum :=
  let cs1 := dropSpacesJS cs
  let sp : ℚ × List Char :=
    match cs1 with
    | '-' :: r => (-1, r)
    | '+' :: r => (1, r)
    | _ => (1, cs1)
  match parseMantissa sp.2 with
  | none => none
  | some m => some (sp.1 * m.1 * pow10 (parseExponent m.2))

/-- `parseFloat(v)` for a request-body value `v`: numbers pass through
unchanged (ToString∘parse is the identity on the modelled numeric domain,
and NaN stays NaN), every other falsy-or-non-numeric value parses from its
string form (`"undefined"`, `"null"`, `"true"`, `"false"` all give NaN). -/
def jsParseFloat : JVal → JNum
  | .undef => none
  | .nullv => none
  | .boolv _ => none
  | .num x => x
  | .str s => parseFloatL s.data

/-- Symbolic model of a bcrypt digest: the digest of plaintext `pw` under a
salt.  `bcryptCompare q d` succeeds exactly when `q` is the hashed plaintext —
the ideal collision-free behaviour of bcrypt that the spec's round-trip
property assumes.  Distinct salts give distinct digests of the same
plaintext, as bcrypt's random salting does. -/
structure Digest where
  pw : String
  salt : Nat
deriving DecidableEq

/-- bcrypt.hash(plaintext, cost) with an explicit salt choice. -/
def bcryptHash (plaintext : String) (salt : Nat) : Digest := ⟨plaintext, salt⟩

/-- bcrypt.compare(plaintext, digest). -/
def bcryptCompare (plaintext : String) (d : Digest) : Bool := plaintext == d.pw

/-- A row of the `users` table (src/server.js lines 50-61).  `balance` is a
`JNum` because the unvalidated loan path can store NaN; `monthly_income` is
nullable NUMERIC.  Stored numerics are returned to JS as canonical numeric
strings by node-postgres; `(user.monthly_income || 0)` and
`parseFloat(user.balance || 0)` therefore read back exactly the stored value,
which is how the model reads these fields. -/
structure User where
  id : Nat
  name : String
  email : String
  password : Digest
  monthly_income : Option ℚ
  date_of_birth : Option String
  address : Option String
  nid_picture : Option String
  balance : JNum
deriving DecidableEq

/-- A row of the `loans` table (src/server.js lines 64-73). -/
structure Loan where
  id : Nat
  user_id : Nat
  amount : JNum
  status : String
  taken_at : Nat
deriving DecidableEq

/-- The persistent store: the tables the claims touch, the SERIAL sequences,
and a clock supplying `CURRENT_TIMESTAMP` for `taken_at`. -/
structure Bank where
  users : List User
  loans : List Loan
  nextUserId : Nat
  nextLoanId : Nat
  now : Nat
deriving DecidableEq

/-- The empty freshly-initialised database. -/
def initialBank : Bank :=
  { users := [], loans := [], nextUserId := 1, nextLoanId := 1, now := 0 }

/-- `SELECT ... FROM users WHERE id=$1` — first row with the given id. -/
def findUser (st : Bank) (uid : Nat) : Option User :=
  st.users.find? (fun u => u.id == uid)

/-- `SELECT ... FROM users WHERE email=$1` — first row with the given email
(case-sensitive match, as implemented). -/
def findByEmail (st : Bank) (email : String) : Option User :=
  st.users.find? (fun u => u.email == email)

/-- `UPDATE users SET balance=$1 WHERE id=$2`. -/
def setBalance (users : List User) (uid : Nat) (b : JNum) : List User :=
  users.map fun v => if v.id == uid then { v with balance := b } else v

/-- `UPDATE users SET password=$1 WHERE id=$2`. -/
def setPassword (users : List User) (uid : Nat) (d : Digest) : List User :=
  users.map fun v => if v.id == uid then { v with password := d } else v

/-- The projected user view attached to the request by `authMiddleware`
(line 132): `SELECT id, name, email, monthly_income, balance, address,
nid_picture` — the password hash is not selected. -/
structure ProjectedUser where
  id : Nat
  name : String
  email : String
  monthly_income : Option ℚ
  balance : JNum
  address : Option String
  nid_picture : Option String
deriving DecidableEq

/-- Projection of a stored user row to the middleware's view. -/
def projectUser (u : User) : ProjectedUser :=
  ⟨u.id, u.name, u.email, u.monthly_income, u.balance, u.address, u.nid_picture⟩

/-- JS `auth.replace(/^Bearer\s+/, '')` on a character list: strip a leading
literal `Bearer` followed by at least one whitespace character (and, greedily,
all following whitespace); any other input is returned unchanged. -/
def stripBearerL (cs : List Char) : List Char :=
  match cs with
  | 'B' :: 'e' :: 'a' :: 'r' :: 'e' :: 'r' :: c :: rest =>
    if jsSpace c then dropSpacesJS rest else cs
  | _ => cs

/-- String form of the Bearer-strip. -/
def stripBearer (s : String) : String := ⟨stripBearerL s.data⟩

/-- Outcome of `authMiddleware`: a 401 rejection carrying the response
message, or control passed on with the projected user attached. -/
inductive AuthOutcome where
  | unauth (msg : String)
  | proceed (view : ProjectedUser)
deriving DecidableEq

/-- HTTP status of an `authMiddleware` outcome (200 standing for
"the downstream handler runs"). -/
def AuthOutcome.statusCode : AuthOutcome → Nat
  | .unauth _ => 401
  | .proceed _ => 200

/-- authMiddleware (src/server.js lines 120-141).  `verify` is the behaviour
of `jwt.verify(·, JWT_SECRET)` — `none` for a malformed, badly signed or
expired token.  The header is `none` when absent; `!auth` is also true for an
empty header value. -/
def authMiddleware (verify : String → Option Nat) (st : Bank) (header : Option String) :
    AuthOutcome :=
  match header with
  | none => .unauth "Authorization header missing"
  | some auth =>
    if auth = "" then .unauth "Authorization header missing"
    else
      match verify (stripBearer auth) with
      | none => .unauth "Invalid or expired token"
      | some uid =>
        match findUser st uid with
        | none => .unauth "User not found"
        | some u => .proceed (projectUser u)

/-- Result of `POST /api/signup`. -/
inductive SignupResult where
  | missingFields
  | duplicateEmail
  | created
deriving DecidableEq

/-- POST /api/signup (src/server.js lines 150-170).  `income` is the
already-coerced nullable numeric stored by `income || null` (a falsy income
arrives as `none`); `salt` is bcrypt's salt choice for this call.  The
balance column takes its DEFAULT 50000 because the INSERT omits it. -/
def signup (st : Bank) (name email password : String) (income : Option ℚ)
    (dob address : Option String) (salt : Nat) : Bank × SignupResult :=
  if name = "" || email = "" || password = "" then (st, .missingFields)
  else if (findByEmail st email).isSome then (st, .duplicateEmail)
  else
    let u : User :=
      { id := st.nextUserId, name := name, email := email
        password := bcryptHash password salt, monthly_income := income
        date_of_birth := dob, address := address, nid_picture := none
        balance := some 50000 }
    ({ st with users := st.users ++ [u], nextUserId := st.nextUserId + 1 }, .created)

/-- Result of `POST /api/signin`.  On success the handler signs a 24h token
for `user.id` and returns it with the password-free `safeUser` view; the
claims only depend on which identity (if any) authenticates, so the result
carries the authenticated user's id. -/
inductive SigninResult where
  | missingCreds
  | invalidCreds
  | ok (uid : Nat)
deriving DecidableEq

/-- Whether a signin attempt succeeded. -/
def SigninResult.isOk : SigninResult → Bool
  | .ok _ => true
  | _ => false

/-- POST /api/signin (src/server.js lines 198-219). -/
def signin (st : Bank) (email password : String) : SigninResult :=
  if email = "" || password = "" then .missingCreds
  else
    match findByEmail st email with
    | none => .invalidCreds
    | some u => if bcryptCompare password u.password then .ok u.id else .invalidCreds

/-- Result of `POST /api/user/take-loan`. -/
inductive LoanResult where
  | invalidInput
  | serverError
  | eligibilityExceeded (ceiling : ℚ)
  | approved (newBalance : JNum)
deriving DecidableEq

/-- Whether a take-loan call reported success (the 201 response). -/
def LoanResult.isApproved : LoanResult → Bool
  | .approved _ => true
  | _ => false

/-- POST /api/user/take-loan (src/server.js lines 227-247), with the two
store writes' outcomes injected (`insertOk`, `updateOk`): a failed `await
db.query` throws and the catch block answers 500 (`serverError`), leaving any
earlier write committed.  Control flow of the source, in order: the
`if (!amount)` truthiness check; the fresh `SELECT monthly_income, balance`;
`maxLoan = (monthly_income || 0) * 3`; `amt = parseFloat(amount)`;
the `amt > maxLoan` rejection; the loan INSERT; `newBalance =
parseFloat(balance || 0) + amt`; the balance UPDATE.  The route runs behind
`authMiddleware`, but the inner SELECT re-reads the user: a vanished row
makes `ur.rows[0]` undefined and the handler throw (500). -/
def takeLoanF (st : Bank) (uid : Nat) (amount : JVal) (insertOk updateOk : Bool) :
    Bank × LoanResult :=
  if amount.truthy then
    match findUser st uid with
    | none => (st, .serverError)
    | some u =>
      let maxLoan : ℚ := (u.monthly_income.getD 0) * 3
      let amt : JNum := jsParseFloat amount
      if jgt amt maxLoan then (st, .eligibilityExceeded maxLoan)
      else if insertOk then
        let stIns : Bank :=
          { st with
            loans := st.loans ++ [⟨st.nextLoanId, uid, amt, "active", st.now⟩]
            nextLoanId := st.nextLoanId + 1
            now := st.now + 1 }
        if updateOk then
          let nb := jadd u.balance amt
          ({ stIns with users := setBalance stIns.users uid nb }, .approved nb)
        else (stIns, .serverError)
      else (st, .serverError)
  else (st, .invalidInput)

/-- The take-loan operation with both writes succeeding (the non-faulty
execution). -/
def takeLoan (st : Bank) (uid : Nat) (amount : JVal) : Bank × LoanResult :=
  takeLoanF st uid amount true true

/-- Stable insertion of a loan into a list sorted by `taken_at` descending. -/
def insertDesc (l : Loan) : List Loan → List Loan
  | [] => [l]
  | x :: xs => if l.taken_at ≤ x.taken_at then x :: insertDesc l xs else l :: x :: xs

/-- Sort loans by `taken_at` descending (the `ORDER BY taken_at DESC`). -/
def sortLoansDesc : List Loan → List Loan
  | [] => []
  | x :: xs => insertDesc x (sortLoansDesc xs)

/-- GET /api/user/loans (src/server.js lines 250-258):
`SELECT * FROM loans WHERE user_id=$1 ORDER BY taken_at DESC`. -/
def listLoans (st : Bank) (uid : Nat) : List Loan :=
  sortLoansDesc (st.loans.filter (fun l => l.user_id == uid))

/-- Result of `POST /api/user/change-password`. -/
inductive ChangePwResult where
  | missingFields
  | invalidCreds
  | serverError
  | ok
deriving DecidableEq

/-- POST /api/user/change-password (src/server.js lines 261-279).  A vanished
user row makes `q.rows[0].password` throw (500). -/
def changePassword (st : Bank) (uid : Nat) (oldPassword newPassword : String)
    (salt : Nat) : Bank × ChangePwResult :=
  if oldPassword = "" || newPassword = "" then (st, .missingFields)
  else
    match findUser st uid with
    | none => (st, .serverError)
    | some u =>
      if bcryptCompare oldPassword u.password then
        ({ st with users := setPassword st.users uid (bcryptHash newPassword salt) }, .ok)
      else (st, .invalidCreds)

/-- One inbound state-relevant operation, for reachability arguments. -/
inductive Op where
  | signup (name email password : String) (income : Option ℚ)
      (dob address : Option String) (salt : Nat)
  | signin (email password : String)
  | changePassword (uid : Nat) (oldPw newPw : String) (salt : Nat)
  | takeLoan (uid : Nat) (amount : JVal)
  | listLoans (uid : Nat)
deriving DecidableEq

/-- State transition of one operation (read-only routes leave the store
unchanged). -/
def step (st : Bank) : Op → Bank
  | .signup n e p i d a s => (signup st n e p i d a s).1
  | .signin _ _ => st
  | .changePassword uid o n s => (changePassword st uid o n s).1
  | .takeLoan uid a => (takeLoan st uid a).1
  | .listLoans _ => st

/-- Run a sequence of operations. -/
def run (st : Bank) : List Op → Bank
  | [] => st
  | op :: ops => run (step st op) ops

/-- Every stored balance that is a finite number is non-negative. -/
def balancesNonneg (st : Bank) : Prop :=
  ∀ u ∈ st.users, ∀ x : ℚ, u.balance = some x → 0 ≤ x

/-- A keyed UPDATE commutes with `find?` whenever the update cannot change
the value of the key predicate. -/
theorem find?_map_comm {α : Type} (g : α → α) (p : α → Bool)
    (h : ∀ v, p (g v) = p v) :
    ∀ l : List α, (l.map g).find? p = (l.find? p).map g := by
  intro l
  induction l with
  | nil => rfl
  | cons x xs ih =>
    cases hx : p x with
    | true =>
      rw [List.map_cons, List.find?_cons_of_pos _ ((h x).trans hx),
        List.find?_cons_of_pos _ hx]
      rfl
    | false =>
      rw [List.map_cons, List.find?_cons_of_neg _ (by simp [h x, hx]),
        List.find?_cons_of_neg _ (by simp [hx]), ih]

/-- Inserting into the descending sort is a permutation of consing. -/
theorem insertDesc_perm (l : Loan) :
    ∀ xs : List Loan, List.Perm (insertDesc l xs) (l :: xs) := by
  intro xs
  induction xs with
  | nil => exact List.Perm.refl _
  | cons x xs ih =>
    unfold insertDesc
    by_cases hc : l.taken_at ≤ x.taken_at
    · rw [if_pos hc]
      exact (List.Perm.cons x ih).trans (List.Perm.swap l x xs)
    · rw [if_neg hc]

/-- The descending sort is a permutation of its input. -/
theorem sortLoansDesc_perm : ∀ xs : List Loan, List.Perm (sortLoansDesc xs) xs := by
  intro xs
  induction xs with
  | nil => exact List.Perm.refl _
  | cons x xs ih => exact (insertDesc_perm x _).trans (List.Perm.cons x ih)

/-- Inserting into a descending-sorted list keeps it descending-sorted. -/
theorem insertDesc_pairwise (l : Loan) (xs : List Loan)
    (h : xs.Pairwise (fun a b => b.taken_at ≤ a.taken_at)) :
    (insertDesc l xs).Pairwise (fun a b => b.taken_at ≤ a.taken_at) := by
  induction xs with
  | nil => simp [insertDesc]
  | cons x xs ih =>
    rcases List.pairwise_cons.mp h with ⟨hx, hxs⟩
    unfold insertDesc
    by_cases hc : l.taken_at ≤ x.taken_at
    · rw [if_pos hc]
      refine List.pairwise_cons.mpr ⟨?_, ih hxs⟩
      intro y hy
      rcases List.mem_cons.mp ((insertDesc_perm l xs).mem_iff.mp hy) with h1 | h2
      · rw [h1]; exact hc
      · exact hx y h2
    · rw [if_neg hc]
      push_neg at hc
      refine List.pairwise_cons.mpr ⟨?_, h⟩
      intro y hy
      rcases List.mem_cons.mp hy with h1 | h2
      · rw [h1]; exact le_of_lt hc
      · exact (hx y h2).trans (le_of_lt hc)

/-- The output of the descending sort is sorted newest-first. -/
theorem sortLoansDesc_pairwise : ∀ xs : List Loan,
    (sortLoansDesc xs).Pairwise (fun a b => b.taken_at ≤ a.taken_at) := by
  intro xs
  induction xs with
  | nil => simp [sortLoansDesc]
  | cons x xs ih => exact insertDesc_pairwise x _ ih

/-- Signup preserves non-negativity of balances: the created row takes the
column DEFAULT 50000. -/
theorem balancesNonneg_signup (st : Bank) (n e p : String) (i : Option ℚ)
    (d a : Option String) (s : Nat) (h : balancesNonneg st) :
    balancesNonneg (signup st n e p i d a s).1 := by
  unfold signup
  split
  · exact h
  · split
    · exact h
    · intro u hu x hx
      rcases List.mem_append.mp hu with h1 | h2
      · exact h u h1 x hx
      · rcases List.mem_singleton.mp h2 with rfl
        simp only [Option.some.injEq] at hx
        rw [← hx]
        norm_num

/-- Change-password preserves every balance: the UPDATE touches only the
password column. -/
theorem balancesNonneg_changePassword (st : Bank) (uid : Nat) (o n : String)
    (s : Nat) (h : balancesNonneg st) :
    balancesNonneg (changePassword st uid o n s).1 := by
  unfold changePassword
  split
  · exact h
  · cases hf : findUser st uid with
    | none => simpa only [hf] using h
    | some u =>
      simp only [hf]
      split
      · intro v hv x hx
        rcases List.mem_map.mp hv with ⟨w, hw, hwv⟩
        by_cases hid : (w.id == uid) = true
        · rw [← hwv, if_pos hid] at hx
          exact h w hw x hx
        · rw [← hwv, if_neg hid] at hx
          exact h w hw x hx
      · exact h

/-- Take-loan preserves non-negativity of balances provided the parsed
request amount is not a negative number (the additive credit then cannot
decrease a balance below zero). -/
theorem balancesNonneg_takeLoan (st : Bank) (uid : Nat) (a : JVal)
    (h : balancesNonneg st)
    (ha : ∀ x : ℚ, jsParseFloat a = some x → 0 ≤ x) :
    balancesNonneg (takeLoan st uid a).1 := by
  unfold takeLoan takeLoanF
  split
  · cases hf : findUser st uid with
    | none => simpa only [hf] using h
    | some u =>
      simp only [hf]
      split
      · exact h
      · intro v hv x hx
        rcases List.mem_map.mp hv with ⟨w, hw, hwv⟩
        by_cases hid : (w.id == uid) = true
        · rw [← hwv, if_pos hid] at hx
          simp only at hx
          cases hb : u.balance with
          | none => rw [hb] at hx; simp [jadd] at hx
          | some b =>
            cases hp : jsParseFloat a with
            | none => rw [hb, hp] at hx; simp [jadd] at hx
            | some q =>
              rw [hb, hp] at hx
              simp only [jadd, Option.some.injEq] at hx
              rw [← hx]
              exact add_nonneg (h u (List.mem_of_find?_eq_some hf) b hb) (ha q hp)
        · rw [← hwv, if_neg hid] at hx
          exact h w hw x hx
  · exact h

/-- Running any sequence of operations whose loan-request amounts never parse
to a negative number preserves non-negativity of all balances. -/
theorem balancesNonneg_run (ops : List Op) : ∀ st : Bank, balancesNonneg st →
    (∀ uid a, Op.takeLoan uid a ∈ ops → ∀ x : ℚ, jsParseFloat a = some x → 0 ≤ x) →
    balancesNonneg (run st ops) := by
  induction ops with
  | nil => exact fun st h _ => h
  | cons op ops ih =>
    intro st h hops
    unfold run
    apply ih
    · cases op with
      | signup n e p i d a s => exact balancesNonneg_signup st n e p i d a s h
      | signin _ _ => exact h
      | changePassword uid o n s => exact balancesNonneg_changePassword st uid o n s h
      | takeLoan uid a =>
        exact balancesNonneg_takeLoan st uid a h
          (hops uid a (List.mem_cons_self _ _))
      | listLoans _ => exact h
    · exact fun uid a hmem => hops uid a (List.mem_cons_of_mem _ hmem)

/-- The ceiling expression of the handler, `(user.monthly_income || 0) * 3`,
read from the current store state. -/
def ceilingOf (st : Bank) (uid : Nat) : Option ℚ :=
  (findUser st uid).map (fun u => u.monthly_income.getD 0 * 3)

/-- Current stored balance of a user, if the row exists. -/
def balanceOf (st : Bank) (uid : Nat) : Option JNum :=
  (findUser st uid).map User.balance

/-- A falsy request amount short-circuits to the 400 `Missing amount`
response before any store access, for any write-fault pattern. -/
theorem takeLoanF_invalid (st : Bank) (uid : Nat) (a : JVal) (iok uok : Bool)
    (ht : a.truthy = false) : takeLoanF st uid a iok uok = (st, .invalidInput) := by
  simp [takeLoanF, ht]

/-- Branch lemma: a truthy amount above the ceiling is rejected with the
ceiling in the message, with no state change. -/
theorem takeLoanF_exceeded (st : Bank) (uid : Nat) (a : JVal) (iok uok : Bool)
    (u : User) (hu : findUser st uid = some u) (ht : a.truthy = true)
    (hg : jgt (jsParseFloat a) (u.monthly_income.getD 0 * 3) = true) :
    takeLoanF st uid a iok uok = (st, .eligibilityExceeded (u.monthly_income.getD 0 * 3)) := by
  simp [takeLoanF, ht, hu, hg]

/-- Branch lemma: a truthy amount within the ceiling, with both writes
succeeding, appends the loan row, updates the balance and reports the new
balance. -/
theorem takeLoanF_approved (st : Bank) (uid : Nat) (a : JVal)
    (u : User) (hu : findUser st uid = some u) (ht : a.truthy = true)
    (hg : jgt (jsParseFloat a) (u.monthly_income.getD 0 * 3) = false) :
    takeLoanF st uid a true true =
      ({ st with
          users := setBalance st.users uid (jadd u.balance (jsParseFloat a))
          loans := st.loans ++ [⟨st.nextLoanId, uid, jsParseFloat a, "active", st.now⟩]
          nextLoanId := st.nextLoanId + 1
          now := st.now + 1 },
        .approved (jadd u.balance (jsParseFloat a))) := by
  simp [takeLoanF, ht, hu, hg]

/-- Branch lemma: when the loan INSERT itself fails, nothing is committed and
the catch block answers 500. -/
theorem takeLoanF_insertFail (st : Bank) (uid : Nat) (a : JVal) (uok : Bool)
    (u : User) (hu : findUser st uid = some u) (ht : a.truthy = true)
    (hg : jgt (jsParseFloat a) (u.monthly_income.getD 0 * 3) = false) :
    takeLoanF st uid a false uok = (st, .serverError) := by
  simp [takeLoanF, ht, hu, hg]

/-- Branch lemma: when the INSERT commits but the balance UPDATE fails, the
loan row remains committed and the catch block answers 500 — the caller is
told the operation failed. -/
theorem takeLoanF_updateFail (st : Bank) (uid : Nat) (a : JVal)
    (u : User) (hu : findUser st uid = some u) (ht : a.truthy = true)
    (hg : jgt (jsParseFloat a) (u.monthly_income.getD 0 * 3) = false) :
    takeLoanF st uid a true false =
      ({ st with
          loans := st.loans ++ [⟨st.nextLoanId, uid, jsParseFloat a, "active", st.now⟩]
          nextLoanId := st.nextLoanId + 1
          now := st.now + 1 },
        .serverError) := by
  simp [takeLoanF, ht, hu, hg]

/-- The balance UPDATE commutes with lookup by id. -/
theorem findUser_setBalance (users : List User) (uid : Nat) (b : JNum) :
    List.find? (fun v => v.id == uid) (setBalance users uid b) =
      (List.find? (fun v => v.id == uid) users).map
        (fun v => if v.id == uid then { v with balance := b } else v) := by
  refine find?_map_comm _ _ (fun v => ?_) users
  by_cases h : (v.id == uid) = true
  · simp [h]
  · simp [h]

/-- The password UPDATE commutes with lookup by id. -/
theorem findUser_setPassword (users : List User) (uid : Nat) (d : Digest) :
    List.find? (fun v => v.id == uid) (setPassword users uid d) =
      (List.find? (fun v => v.id == uid) users).map
        (fun v => if v.id == uid then { v with password := d } else v) := by
  refine find?_map_comm _ _ (fun v => ?_) users
  by_cases h : (v.id == uid) = true
  · simp [h]
  · simp [h]

/-- The password UPDATE commutes with lookup by email (it never changes an
email). -/
theorem findByEmail_setPassword (users : List User) (uid : Nat) (d : Digest) (e : String) :
    List.find? (fun v => v.email == e) (setPassword users uid d) =
      (List.find? (fun v => v.email == e) users).map
        (fun v => if v.id == uid then { v with password := d } else v) := by
  refine find?_map_comm _ _ (fun v => ?_) users
  by_cases h : (v.id == uid) = true
  · simp [h]
  · simp [h]

/-- Base example state: Alice, declared monthly income 10000, so an
eligibility ceiling of 30000, and the default starting balance 50000. -/
def bankA : Bank := (signup initialBank "Alice" "a@b" "pw" (some 10000) none none 0).1

/-- Alice's stored row in `bankA`. -/
def aliceRow : User :=
  { id := 1, name := "Alice", email := "a@b", password := ⟨"pw", 0⟩
    monthly_income := some 10000, date_of_birth := none, address := none
    nid_picture := none, balance := some 50000 }

/-- Example state with a user who declared no income (NULL `monthly_income`),
so an eligibility ceiling of 0. -/
def bankN : Bank := (signup initialBank "Noah" "n@b" "pw" none none none 0).1

/-- A committed balance UPDATE is visible through a subsequent lookup of the
updated user. -/
theorem findUser_afterBalanceWrite (st : Bank) (uid : Nat) (u : User) (b : JNum)
    (hu : findUser st uid = some u) :
    List.find? (fun v => v.id == uid) (setBalance st.users uid b) =
      some { u with balance := b } := by
  rw [findUser_setBalance]
  have hu' : List.find? (fun v => v.id == uid) st.users = some u := hu
  have hid : u.id = uid := by simpa using List.find?_some hu'
  rw [hu']
  simp [hid]

/-- C1 counterexample: for a user whose declared income is NULL the computed
ceiling is 0, yet the request with amount equal to that ceiling (amount 0) is
caught by the handler's `if (!amount)` truthiness check and rejected as
InvalidInput (`Missing amount`) — it does not succeed as the claim states. -/
theorem c1_counterexample :
    ceilingOf bankN 1 = some 0 ∧
    takeLoan bankN 1 (JVal.num (some 0)) = (bankN, .invalidInput) ∧
    ((takeLoan bankN 1 (JVal.num (some 0))).2).isApproved = false := by
  refine ⟨?_, ?_, ?_⟩
  · norm_num +decide [ceilingOf, bankN, signup, initialBank, findByEmail, findUser, bcryptHash]
  · norm_num +decide [takeLoan, takeLoanF, JVal.truthy]
  · norm_num +decide [takeLoan, takeLoanF, JVal.truthy, LoanResult.isApproved]

/-- C1 (amended): the eligibility ceiling is exactly three times the income
read fresh from the store (0 when income is NULL); a truthy request amount
that parses to exactly the ceiling is approved, and a truthy request amount
that parses strictly above the ceiling is rejected with EligibilityExceeded
carrying the computed ceiling.  (The truthiness proviso is forced by the
counterexample: the amount equal to a ceiling of 0 is falsy and rejected as
InvalidInput instead of succeeding.) -/
theorem c1_eligibility (st : Bank) (uid : Nat) (a : JVal) (u : User)
    (hu : findUser st uid = some u) (ht : a.truthy = true) :
    ceilingOf st uid = some (u.monthly_income.getD 0 * 3) ∧
    (jsParseFloat a = some (u.monthly_income.getD 0 * 3) →
      (takeLoan st uid a).2 = .approved (jadd u.balance (jsParseFloat a))) ∧
    (∀ x : ℚ, jsParseFloat a = some x → u.monthly_income.getD 0 * 3 < x →
      takeLoan st uid a = (st, .eligibilityExceeded (u.monthly_income.getD 0 * 3))) := by
  refine ⟨by simp [ceilingOf, hu], ?_, ?_⟩
  · intro hp
    have hg : jgt (jsParseFloat a) (u.monthly_income.getD 0 * 3) = false := by
      rw [hp]; simp [jgt]
    rw [takeLoan, takeLoanF_approved st uid a u hu ht hg]
  · intro x hp hlt
    have hg : jgt (jsParseFloat a) (u.monthly_income.getD 0 * 3) = true := by
      rw [hp]; simp [jgt, hlt]
    rw [takeLoan]
    exact takeLoanF_exceeded st uid a true true u hu ht hg

/-- C1 witness: Alice (income 10000, ceiling 30000) is approved at exactly
30000 and rejected with the ceiling at 30001. -/
theorem c1_witness :
    (takeLoan bankA 1 (JVal.num (some 30000))).2 =
      .approved (jadd aliceRow.balance (jsParseFloat (JVal.num (some 30000)))) ∧
    takeLoan bankA 1 (JVal.num (some 30001)) =
      (bankA, .eligibilityExceeded (aliceRow.monthly_income.getD 0 * 3)) :=
  ⟨(c1_eligibility bankA 1 (JVal.num (some 30000)) aliceRow rfl
      (by norm_num +decide [JVal.truthy])).2.1
      (by norm_num [jsParseFloat, aliceRow]),
   (c1_eligibility bankA 1 (JVal.num (some 30001)) aliceRow rfl
      (by norm_num +decide [JVal.truthy])).2.2 30001
      (by norm_num [jsParseFloat]) (by norm_num [aliceRow])⟩

/-- C2: a successful takeLoan for amount `a` returns exactly the pre-call
balance plus the parsed amount, stores that same value as the user's new
balance, and appends one new Loan row for that user with that amount and
status active. -/
theorem c2_loan_effects (st : Bank) (uid : Nat) (a : JVal) (st' : Bank) (b : JNum) (u : User)
    (hu : findUser st uid = some u) (h : takeLoan st uid a = (st', .approved b)) :
    b = jadd u.balance (jsParseFloat a) ∧
    findUser st' uid = some { u with balance := b } ∧
    st'.loans = st.loans ++ [⟨st.nextLoanId, uid, jsParseFloat a, "active", st.now⟩] := by
  cases ht : a.truthy with
  | false =>
    rw [takeLoan, takeLoanF_invalid st uid a true true ht, Prod.mk.injEq] at h
    exact absurd h.2 (by simp)
  | true =>
    cases hg : jgt (jsParseFloat a) (u.monthly_income.getD 0 * 3) with
    | true =>
      rw [takeLoan, takeLoanF_exceeded st uid a true true u hu ht hg, Prod.mk.injEq] at h
      exact absurd h.2 (by simp)
    | false =>
      rw [takeLoan, takeLoanF_approved st uid a u hu ht hg, Prod.mk.injEq] at h
      obtain ⟨h1, h2⟩ := h
      injection h2 with hb
      subst h1
      refine ⟨hb.symm, ?_, rfl⟩
      show List.find? (fun v => v.id == uid)
        (setBalance st.users uid (jadd u.balance (jsParseFloat a))) = some { u with balance := b }
      rw [findUser_afterBalanceWrite st uid u _ hu, hb]

/-- C2 witness: Alice borrows 100; the call returns 50100, stores it, and the
loan row is appended. -/
theorem c2_witness :
    some 50100 = jadd aliceRow.balance (jsParseFloat (JVal.num (some 100))) ∧
    findUser (takeLoan bankA 1 (JVal.num (some 100))).1 1 =
      some { aliceRow with balance := some 50100 } ∧
    (takeLoan bankA 1 (JVal.num (some 100))).1.loans =
      bankA.loans ++ [⟨bankA.nextLoanId, 1, jsParseFloat (JVal.num (some 100)), "active", bankA.now⟩] :=
  c2_loan_effects bankA 1 (JVal.num (some 100)) (takeLoan bankA 1 (JVal.num (some 100))).1
    (some 50100) aliceRow rfl
    (by norm_num +decide [takeLoan, takeLoanF, bankA, signup, initialBank, findByEmail, findUser,
      JVal.truthy, jgt, jadd, jsParseFloat, bcryptHash, setBalance])

/-- C3 counterexample: a strictly negative amount (−5 ≤ 0) is not rejected as
InvalidInput — it is approved, creating a negative loan and shrinking the
balance to 49995. -/
theorem c3_counterexample :
    (takeLoan bankA 1 (JVal.num (some (-5)))).2 = .approved (some 49995) ∧
    (takeLoan bankA 1 (JVal.num (some (-5)))).2 ≠ .invalidInput := by
  constructor
  · norm_num +decide [takeLoan, takeLoanF, bankA, signup, initialBank, findByEmail, findUser,
      JVal.truthy, jgt, jadd, jsParseFloat, bcryptHash, setBalance]
  · norm_num +decide [takeLoan, takeLoanF, bankA, signup, initialBank, findByEmail, findUser,
      JVal.truthy, jgt, jadd, jsParseFloat, bcryptHash, setBalance]

/-- C3 (amended): the handler rejects with InvalidInput (leaving the state
unchanged) exactly when the request amount is falsy — absent, null, false,
numeric 0, NaN, or the empty string.  A truthy amount is never rejected as
InvalidInput: negative numeric amounts and non-numeric strings (which parse
to NaN) pass the check, contrary to the claim's "non-numeric, or ≤ 0". -/
theorem c3_input_validation (st : Bank) (uid : Nat) (a : JVal) :
    (a.truthy = false → takeLoan st uid a = (st, .invalidInput)) ∧
    (a.truthy = true → (takeLoan st uid a).2 ≠ .invalidInput) := by
  constructor
  · intro ht
    rw [takeLoan]
    exact takeLoanF_invalid st uid a true true ht
  · intro ht h
    cases hf : findUser st uid with
    | none => rw [takeLoan] at h; simp [takeLoanF, ht, hf] at h
    | some u =>
      cases hg : jgt (jsParseFloat a) (u.monthly_income.getD 0 * 3) with
      | true =>
        rw [takeLoan, takeLoanF_exceeded st uid a true true u hf ht hg] at h
        simp at h
      | false =>
        rw [takeLoan, takeLoanF_approved st uid a u hf ht hg] at h
        simp at h

/-- C3 witness: an absent amount is rejected with no state change; a truthy
amount (7) is not rejected as InvalidInput. -/
theorem c3_witness :
    takeLoan bankA 1 JVal.undef = (bankA, .invalidInput) ∧
    (takeLoan bankA 1 (JVal.num (some 7))).2 ≠ .invalidInput :=
  ⟨(c3_input_validation bankA 1 JVal.undef).1 rfl,
   (c3_input_validation bankA 1 (JVal.num (some 7))).2 (by norm_num +decide [JVal.truthy])⟩

/-- C4 counterexample: the balance can become negative.  Alice (ceiling
30000, balance 50000) requests −60000; `−60000 > 30000` is false, so the
loan is approved and the stored balance becomes −10000 < 0. -/
theorem c4_counterexample :
    (takeLoan bankA 1 (JVal.num (some (-60000)))).2 = .approved (some (-10000)) ∧
    balanceOf (takeLoan bankA 1 (JVal.num (some (-60000)))).1 1 = some (some (-10000)) ∧
    ((-10000 : ℚ) < 0) := by
  refine ⟨?_, ?_, by norm_num⟩
  · norm_num +decide [takeLoan, takeLoanF, bankA, signup, initialBank, findByEmail, findUser,
      JVal.truthy, jgt, jadd, jsParseFloat, bcryptHash, setBalance]
  · norm_num +decide [balanceOf, takeLoan, takeLoanF, bankA, signup, initialBank, findByEmail,
      findUser, JVal.truthy, jgt, jadd, jsParseFloat, bcryptHash, setBalance]

/-- C4 (amended): balances stay non-negative over every operation sequence
whose loan-request amounts never parse to a negative number (each signup
starts at the 50000 default and the only balance mutation is the additive
loan credit).  The restriction is forced by the counterexample: the code
accepts negative amounts, and those drive a balance negative. -/
theorem c4_balances_nonneg (ops : List Op) (st : Bank) (h0 : balancesNonneg st)
    (hops : ∀ uid a, Op.takeLoan uid a ∈ ops → ∀ x : ℚ, jsParseFloat a = some x → 0 ≤ x) :
    balancesNonneg (run st ops) :=
  balancesNonneg_run ops st h0 hops

/-- C4 witness: a concrete signup followed by a non-negative loan keeps all
balances non-negative, starting from the empty store. -/
theorem c4_witness :
    balancesNonneg initialBank ∧
    balancesNonneg (run initialBank
      [Op.signup "Ann" "ann@b" "pw" (some 10) none none 0, Op.takeLoan 1 (JVal.num (some 30))]) := by
  have h0 : balancesNonneg initialBank := by
    intro u hu
    simp [initialBank] at hu
  refine ⟨h0, c4_balances_nonneg _ initialBank h0 ?_⟩
  intro uid a hmem x hx
  rcases List.mem_cons.mp hmem with h | h
  · exact Op.noConfusion h
  · rcases List.mem_cons.mp h with h2 | h2
    · injection h2 with h3 h4
      subst h4
      simp only [jsParseFloat, Option.some.injEq] at hx
      rw [← hx]
      norm_num
    · simp at h2

/-- C5: the take-loan operation never reports success unless both the loan
INSERT and the balance UPDATE took effect (for any write-fault pattern), and
the only execution that mutates the store without full success is the
INSERT-committed/UPDATE-failed one, which answers the 500 server error — the
caller is always told the operation failed when only one write committed. -/
theorem c5_atomicity (st : Bank) (uid : Nat) (a : JVal) (iok uok : Bool) (u : User)
    (hu : findUser st uid = some u) :
    ((takeLoanF st uid a iok uok).2.isApproved = true →
      (takeLoanF st uid a iok uok).1.loans =
        st.loans ++ [⟨st.nextLoanId, uid, jsParseFloat a, "active", st.now⟩] ∧
      findUser (takeLoanF st uid a iok uok).1 uid =
        some { u with balance := jadd u.balance (jsParseFloat a) }) ∧
    ((takeLoanF st uid a iok uok).1 ≠ st →
      (takeLoanF st uid a iok uok).2.isApproved = true ∨
      (takeLoanF st uid a iok uok).2 = .serverError) := by
  cases ht : a.truthy with
  | false =>
    rw [takeLoanF_invalid st uid a iok uok ht]
    exact ⟨fun h => by simp [LoanResult.isApproved] at h, fun h => absurd rfl h⟩
  | true =>
    cases hg : jgt (jsParseFloat a) (u.monthly_income.getD 0 * 3) with
    | true =>
      rw [takeLoanF_exceeded st uid a iok uok u hu ht hg]
      exact ⟨fun h => by simp [LoanResult.isApproved] at h, fun h => absurd rfl h⟩
    | false =>
      cases iok with
      | false =>
        rw [takeLoanF_insertFail st uid a uok u hu ht hg]
        exact ⟨fun h => by simp [LoanResult.isApproved] at h, fun h => absurd rfl h⟩
      | true =>
        cases uok with
        | false =>
          rw [takeLoanF_updateFail st uid a u hu ht hg]
          exact ⟨fun h => by simp [LoanResult.isApproved] at h, fun _ => Or.inr rfl⟩
        | true =>
          rw [takeLoanF_approved st uid a u hu ht hg]
          refine ⟨fun _ => ⟨rfl, ?_⟩, fun _ => Or.inl rfl⟩
          show List.find? (fun v => v.id == uid)
            (setBalance st.users uid (jadd u.balance (jsParseFloat a))) =
            some { u with balance := jadd u.balance (jsParseFloat a) }
          exact findUser_afterBalanceWrite st uid u _ hu

/-- C5 witness: instantiation on Alice's store for a successful call and for
an update-failed call. -/
theorem c5_witness :
    ((takeLoanF bankA 1 (JVal.num (some 100)) true true).2.isApproved = true →
      (takeLoanF bankA 1 (JVal.num (some 100)) true true).1.loans =
        bankA.loans ++ [⟨bankA.nextLoanId, 1, jsParseFloat (JVal.num (some 100)), "active", bankA.now⟩] ∧
      findUser (takeLoanF bankA 1 (JVal.num (some 100)) true true).1 1 =
        some { aliceRow with balance := jadd aliceRow.balance (jsParseFloat (JVal.num (some 100))) }) ∧
    ((takeLoanF bankA 1 (JVal.num (some 100)) true false).1 ≠ bankA →
      (takeLoanF bankA 1 (JVal.num (some 100)) true false).2.isApproved = true ∨
      (takeLoanF bankA 1 (JVal.num (some 100)) true false).2 = .serverError) :=
  ⟨(c5_atomicity bankA 1 (JVal.num (some 100)) true true aliceRow rfl).1,
   (c5_atomicity bankA 1 (JVal.num (some 100)) true false aliceRow rfl).2⟩

/-- A token library behaviour that accepts nothing (e.g. every token is
malformed, badly signed or expired). -/
def noTokenVerify : String → Option Nat := fun _ => none

/-- A token library behaviour accepting exactly the token tok123, minted for
user id 1. -/
def tokenVerify1 : String → Option Nat := fun s => if s = "tok123" then some 1 else none

/-- A token library behaviour accepting exactly the token tok9, minted for a
user id 9 that no longer exists in the example store. -/
def tokenVerify9 : String → Option Nat := fun s => if s = "tok9" then some 9 else none

/-- C6 counterexample: a missing header and an invalid token do NOT yield
the same outcome — both are 401 rejections, but the response bodies differ
(`Authorization header missing` vs `Invalid or expired token`), so the
gate's outcome does reveal the cause to the caller. -/
theorem c6_counterexample :
    authMiddleware noTokenVerify initialBank none ≠
      authMiddleware noTokenVerify initialBank (some "sometoken") ∧
    (authMiddleware noTokenVerify initialBank none).statusCode = 401 ∧
    (authMiddleware noTokenVerify initialBank (some "sometoken")).statusCode = 401 := by
  refine ⟨by decide, rfl, rfl⟩

/-- C6 (amended): the gate rejects all three causes — missing (or empty)
header, failed token validation, vanished user — with a 401 Unauthenticated
outcome, though with cause-specific messages rather than one identical
response; otherwise it attaches the projected user view, which contains no
password-hash field (two users differing only in password hash project
identically), and every outcome is either a 401 or a projected-view
pass-through. -/
theorem c6_auth_gate (v : String → Option Nat) (st : Bank) :
    authMiddleware v st none = .unauth "Authorization header missing" ∧
    (∀ s, s = "" → authMiddleware v st (some s) = .unauth "Authorization header missing") ∧
    (∀ s, s ≠ "" → v (stripBearer s) = none →
      authMiddleware v st (some s) = .unauth "Invalid or expired token") ∧
    (∀ s uid, s ≠ "" → v (stripBearer s) = some uid → findUser st uid = none →
      authMiddleware v st (some s) = .unauth "User not found") ∧
    (∀ s uid u, s ≠ "" → v (stripBearer s) = some uid → findUser st uid = some u →
      authMiddleware v st (some s) = .proceed (projectUser u)) ∧
    (∀ u d, projectUser { u with password := d } = projectUser u) ∧
    (∀ h, (authMiddleware v st h).statusCode = 401 ∨
      ∃ uid u, findUser st uid = some u ∧ authMiddleware v st h = .proceed (projectUser u)) := by
  refine ⟨rfl, ?_, ?_, ?_, ?_, fun u d => rfl, ?_⟩
  · intro s hs
    simp [authMiddleware, hs]
  · intro s hs hv
    simp [authMiddleware, hs, hv]
  · intro s uid hs hv hf
    simp [authMiddleware, hs, hv, hf]
  · intro s uid u hs hv hf
    simp [authMiddleware, hs, hv, hf]
  · intro h
    match h with
    | none => exact Or.inl rfl
    | some s =>
      by_cases hs : s = ""
      · left
        simp [authMiddleware, hs, AuthOutcome.statusCode]
      · cases hv : v (stripBearer s) with
        | none =>
          left
          simp [authMiddleware, hs, hv, AuthOutcome.statusCode]
        | some uid =>
          cases hf : findUser st uid with
          | none =>
            left
            simp [authMiddleware, hs, hv, hf, AuthOutcome.statusCode]
          | some u =>
            right
            exact ⟨uid, u, hf, by simp [authMiddleware, hs, hv, hf]⟩

/-- C6 witness: the three rejection causes and the success path on concrete
stores, tokens and verifier behaviours. -/
theorem c6_witness :
    authMiddleware noTokenVerify bankA none = .unauth "Authorization header missing" ∧
    authMiddleware noTokenVerify bankA (some "") = .unauth "Authorization header missing" ∧
    authMiddleware noTokenVerify bankA (some "zzz") = .unauth "Invalid or expired token" ∧
    authMiddleware tokenVerify9 bankA (some "tok9") = .unauth "User not found" ∧
    authMiddleware tokenVerify1 bankA (some "tok123") = .proceed (projectUser aliceRow) ∧
    projectUser { aliceRow with password := ⟨"other", 5⟩ } = projectUser aliceRow :=
  ⟨(c6_auth_gate noTokenVerify bankA).1,
   (c6_auth_gate noTokenVerify bankA).2.1 "" rfl,
   (c6_auth_gate noTokenVerify bankA).2.2.1 "zzz" (by decide) rfl,
   (c6_auth_gate tokenVerify9 bankA).2.2.2.1 "tok9" 9 (by decide) (by decide) rfl,
   (c6_auth_gate tokenVerify1 bankA).2.2.2.2.1 "tok123" 1 aliceRow (by decide) (by decide) rfl,
   (c6_auth_gate tokenVerify1 bankA).2.2.2.2.2.1 aliceRow ⟨"other", 5⟩⟩

/-- C7: signing up with the email of any existing user yields the
DuplicateEmail outcome and leaves the store unchanged — no row is created.
(The required fields of the second registration must be present; an
incomplete request is caught earlier by the missing-fields check.) -/
theorem c7_duplicate_email (st : Bank) (name email password : String) (inc : Option ℚ)
    (dob addr : Option String) (salt : Nat) (u : User)
    (hmem : u ∈ st.users) (hmail : u.email = email)
    (hn : name ≠ "") (he : email ≠ "") (hp : password ≠ "") :
    signup st name email password inc dob addr salt = (st, .duplicateEmail) := by
  have hex : (findByEmail st email).isSome = true := by
    simp only [findByEmail, List.find?_isSome]
    exact ⟨u, hmem, by simp [hmail]⟩
  simp [signup, hn, he, hp, hex]

/-- C7 witness: registering Bob with Alice's email is rejected as duplicate
and the store is unchanged. -/
theorem c7_witness :
    signup bankA "Bob" "a@b" "pw2" none none none 1 = (bankA, .duplicateEmail) :=
  c7_duplicate_email bankA "Bob" "a@b" "pw2" none none none 1 aliceRow
    (List.Mem.head _) rfl (by decide) (by decide) (by decide)

/-- Example state for the password claims: Carol, password pw, no income. -/
def bankP : Bank := (signup initialBank "Carol" "c@b" "pw" none none none 0).1

/-- Carol's stored row in `bankP`. -/
def carolRow : User :=
  { id := 1, name := "Carol", email := "c@b", password := ⟨"pw", 0⟩
    monthly_income := none, date_of_birth := none, address := none
    nid_picture := none, balance := some 50000 }

/-- C8 counterexample: changing the password to the very same password
succeeds, and the "old" password still authenticates afterwards — the
claim's unconditional "the old password fails" is false when the new
password equals the old one. -/
theorem c8_counterexample :
    (changePassword bankP 1 "pw" "pw" 1).2 = .ok ∧
    signin (changePassword bankP 1 "pw" "pw" 1).1 "c@b" "pw" = .ok 1 :=
  ⟨rfl, rfl⟩

/-- C8 (amended): with a wrong old password, change-password answers
InvalidCredentials and the store (hence the stored hash) is unchanged; with
the correct old password it stores a hash of the new password, after which
signin with the new password authenticates as the same user, and signin with
the old password fails whenever the old password differs from the new one
(forced by the counterexample: when they coincide the old password still
succeeds). -/
theorem c8_change_password (st : Bank) (uid : Nat) (oldPw newPw : String) (salt : Nat)
    (u : User) (hu : findUser st uid = some u) (ho : oldPw ≠ "") (hn : newPw ≠ "") :
    (bcryptCompare oldPw u.password = false →
      changePassword st uid oldPw newPw salt = (st, .invalidCreds)) ∧
    (bcryptCompare oldPw u.password = true →
      (changePassword st uid oldPw newPw salt).2 = .ok ∧
      findUser (changePassword st uid oldPw newPw salt).1 uid =
        some { u with password := bcryptHash newPw salt } ∧
      (findByEmail st u.email = some u → u.email ≠ "" →
        signin (changePassword st uid oldPw newPw salt).1 u.email newPw = .ok uid ∧
        (oldPw ≠ newPw →
          signin (changePassword st uid oldPw newPw salt).1 u.email oldPw = .invalidCreds))) := by
  have hu' : List.find? (fun v => v.id == uid) st.users = some u := hu
  have hid : u.id = uid := by simpa using List.find?_some hu'
  constructor
  · intro hc
    simp [changePassword, ho, hn, hu, hc]
  · intro hc
    have hcp : changePassword st uid oldPw newPw salt =
        ({ st with users := setPassword st.users uid (bcryptHash newPw salt) }, .ok) := by
      simp [changePassword, ho, hn, hu, hc]
    rw [hcp]
    refine ⟨rfl, ?_, ?_⟩
    · show List.find? (fun v => v.id == uid)
        (setPassword st.users uid (bcryptHash newPw salt)) = _
      rw [findUser_setPassword, hu']
      simp [hid]
    · intro hbe hne
      have hbe' : List.find? (fun v => v.email == u.email) st.users = some u := hbe
      have hfind : List.find? (fun v => v.email == u.email)
          (setPassword st.users uid (bcryptHash newPw salt)) =
          some { u with password := bcryptHash newPw salt } := by
        rw [findByEmail_setPassword, hbe']
        simp [hid]
      have hfind2 : List.find? (fun v => v.email == u.email)
          (setPassword st.users uid { pw := newPw, salt := salt }) =
          some { u with password := { pw := newPw, salt := salt } } := hfind
      constructor
      · simp [signin, findByEmail, hne, hn, hfind, hfind2, bcryptCompare, bcryptHash, hid]
      · intro hdiff
        simp [signin, findByEmail, hne, ho, hfind, hfind2, bcryptCompare, bcryptHash, hdiff]

/-- C8 witness: a wrong old password is rejected with the state unchanged; a
correct change to pw2 stores the new hash, pw2 then signs Carol in and the
old pw is rejected. -/
theorem c8_witness :
    changePassword bankP 1 "xx" "zz" 1 = (bankP, .invalidCreds) ∧
    (changePassword bankP 1 "pw" "pw2" 1).2 = .ok ∧
    signin (changePassword bankP 1 "pw" "pw2" 1).1 "c@b" "pw2" = .ok 1 ∧
    signin (changePassword bankP 1 "pw" "pw2" 1).1 "c@b" "pw" = .invalidCreds := by
  have h1 := c8_change_password bankP 1 "xx" "zz" 1 carolRow rfl (by decide) (by decide)
  have h2 := (c8_change_password bankP 1 "pw" "pw2" 1 carolRow rfl (by decide) (by decide)).2
    (by decide)
  exact ⟨h1.1 (by decide), h2.1, (h2.2.2 rfl (by decide)).1, (h2.2.2 rfl (by decide)).2 (by decide)⟩

/-- C9: the loan-history query returns exactly the authenticated user's
loans — a permutation of the user's rows of the loans table, every returned
row belongs to that user, every row of that user is returned — ordered
newest-first by the issuance timestamp. -/
theorem c9_list_loans (st : Bank) (uid : Nat) :
    List.Perm (listLoans st uid) (st.loans.filter (fun l => l.user_id == uid)) ∧
    (∀ l ∈ listLoans st uid, l.user_id = uid) ∧
    (∀ l ∈ st.loans, l.user_id = uid → l ∈ listLoans st uid) ∧
    (listLoans st uid).Pairwise (fun a b => b.taken_at ≤ a.taken_at) := by
  have hperm : List.Perm (listLoans st uid) (st.loans.filter (fun l => l.user_id == uid)) :=
    sortLoansDesc_perm _
  refine ⟨hperm, ?_, ?_, sortLoansDesc_pairwise _⟩
  · intro l hl
    have hmem : l ∈ st.loans.filter (fun l => l.user_id == uid) := hperm.mem_iff.mp hl
    simpa using (List.mem_filter.mp hmem).2
  · intro l hl hlid
    exact hperm.mem_iff.mpr (List.mem_filter.mpr ⟨hl, by simp [hlid]⟩)

/-- Example state with two loans issued to Alice at timestamps 0 and 1. -/
def bankL : Bank :=
  (takeLoan (takeLoan bankA 1 (JVal.num (some 10))).1 1 (JVal.num (some 20))).1

/-- C9 witness: on the two-loan store the history comes back newest-first
and is a permutation of Alice's rows. -/
theorem c9_witness :
    listLoans bankL 1 = [⟨2, 1, some 20, "active", 1⟩, ⟨1, 1, some 10, "active", 0⟩] ∧
    List.Perm (listLoans bankL 1) (bankL.loans.filter (fun l => l.user_id == 1)) :=
  ⟨by norm_num +decide [listLoans, sortLoansDesc, insertDesc, bankL, bankA, takeLoan, takeLoanF,
      signup, initialBank, findByEmail, findUser, JVal.truthy, jgt, jadd, jsParseFloat,
      bcryptHash, setBalance],
   (c9_list_loans bankL 1).1⟩

/-- Whether the first character of a string is JS whitespace. -/
def startsWithSpace (s : String) : Bool :=
  match s.data with
  | [] => false
  | c :: _ => jsSpace c

/-- Helper: the Bearer-strip on a header that literally starts with
`Bearer` and one space eats the prefix and any further whitespace. -/
theorem stripBearerL_bearer (rest : List Char) :
    stripBearerL ('B' :: 'e' :: 'a' :: 'r' :: 'e' :: 'r' :: ' ' :: rest) = dropSpacesJS rest := by
  simp [stripBearerL, jsSpace]

/-- Helper: dropping JS whitespace from a list whose head is not whitespace
is the identity. -/
theorem dropSpacesJS_cons_false (c : Char) (cs : List Char) (h : jsSpace c = false) :
    dropSpacesJS (c :: cs) = c :: cs := by
  simp [dropSpacesJS, h]

/-- C10: for a token of JWT shape (non-empty, not itself starting with
whitespace, not itself carrying a Bearer prefix — all true of real JWTs),
sending the bare token in the Authorization header is treated exactly like
sending `Bearer` plus the token: the regex strips the prefix only if
present, so both headers run the gate on the same token and resolve to the
same identity. -/
theorem c10_bare_token (v : String → Option Nat) (st : Bank) (t : String)
    (hne : t ≠ "") (hsp : startsWithSpace t = false) (hsb : stripBearer t = t) :
    authMiddleware v st (some ("Bearer " ++ t)) = authMiddleware v st (some t) ∧
    (∀ uid u, v t = some uid → findUser st uid = some u →
      authMiddleware v st (some ("Bearer " ++ t)) = .proceed (projectUser u)) := by
  have ht : t.data ≠ [] := by
    intro h
    apply hne
    cases t
    simp only at h
    rw [h]
  obtain ⟨c, cs, hcs⟩ : ∃ c cs, t.data = c :: cs := by
    cases hd : t.data with
    | nil => exact absurd hd ht
    | cons c cs => exact ⟨c, cs, rfl⟩
  have hc : jsSpace c = false := by
    have hx := hsp
    unfold startsWithSpace at hx
    rw [hcs] at hx
    exact hx
  have hstrip : stripBearer ("Bearer " ++ t) = t := by
    have h1 : ("Bearer " ++ t).data = 'B' :: 'e' :: 'a' :: 'r' :: 'e' :: 'r' :: ' ' :: t.data := rfl
    have h2 : stripBearerL (("Bearer " ++ t).data) = t.data := by
      rw [h1, stripBearerL_bearer, hcs]
      exact dropSpacesJS_cons_false c cs hc
    show (⟨stripBearerL (("Bearer " ++ t).data)⟩ : String) = t
    rw [h2]
  have hBne : ("Bearer " ++ t) ≠ "" := by
    intro h
    have h2 : ("Bearer " ++ t).data = [] := by rw [h]
    have h1 : ("Bearer " ++ t).data = 'B' :: 'e' :: 'a' :: 'r' :: 'e' :: 'r' :: ' ' :: t.data := rfl
    rw [h1] at h2
    exact List.noConfusion h2
  constructor
  · simp only [authMiddleware]
    rw [if_neg hBne, if_neg hne, hstrip, hsb]
  · intro uid u hv hf
    simp only [authMiddleware]
    rw [if_neg hBne, hstrip, hv]
    simp [hf]

/-- C10 witness: the bare token tok123 and the header `Bearer tok123` give
the same outcome and both land on Alice's projected view. -/
theorem c10_witness :
    authMiddleware tokenVerify1 bankA (some ("Bearer " ++ "tok123")) =
      authMiddleware tokenVerify1 bankA (some "tok123") ∧
    authMiddleware tokenVerify1 bankA (some ("Bearer " ++ "tok123")) =
      .proceed (projectUser aliceRow) :=
  ⟨(c10_bare_token tokenVerify1 bankA "tok123" (by decide) rfl rfl).1,
   (c10_bare_token tokenVerify1 bankA "tok123" (by decide) rfl rfl).2 1 aliceRow (by decide) rfl⟩

end SecureBank
